import Mathlib

/-! Shallow embedding of `src/cam_control.py`: a camera controller holding a
mutex-guarded single-frame store, optional preview toggles, and a vision
client that POSTs a JPEG of the current frame to a local Ollama endpoint.

Mutable numpy frame arrays are modelled by an explicit heap (`Heap`) of frame
payloads addressed by `Ref`, so that copying versus aliasing is observable:
`self.last_frame = frame` stores a reference, `self.last_frame.copy()`
allocates a fresh cell.  External collaborators (the OpenCV capture device
and JPEG encoder, the HTTP stack) enter as function parameters or explicit
outcome values; the Python methods become pure Lean functions over these
inputs, sequentialising the thread bodies into explicit steps. -/

/-- Bytes of one bitmap frame (the payload of a numpy array). -/
abbrev FrameData := List Nat

/-- Address of a frame object on the heap. -/
abbrev Ref := Nat

/-- Heap of allocated frame objects; an address is an index into the list. -/
abbrev Heap := List FrameData

/-- Allocate a fresh frame object holding `v`; returns its address. -/
def allocFrame (h : Heap) (v : FrameData) : Ref × Heap :=
  (h.length, h ++ [v])

/-- Read the frame payload at address `r`. -/
def readRef (h : Heap) (r : Ref) : FrameData :=
  h.getD r []

/-- Overwrite (mutate in place) the frame object at address `r` with `v`. -/
def writeRef (h : Heap) (r : Ref) (v : FrameData) : Heap :=
  h.set r v

/-- State of one `CameraControl` instance (`__init__`, lines 54-67).  The
`threading.Lock` and thread handles have no sequential content; instead the
ghost counters `capture_threads` and `preview_threads` record how many
capture-loop and preview-loop threads have been started.  `preview_running`
embeds the Python attribute `_preview_running`; `cap` holds the index the
device was acquired with, or `none` when no device handle is retained. -/
structure CameraControl where
  index : Nat
  width : Nat
  height : Nat
  cap : Option Nat
  running : Bool
  last_frame : Option Ref
  preview : Bool
  window_name : String
  preview_running : Bool
  capture_threads : Nat
  preview_threads : Nat

/-- `CameraControl(index, width, height, preview, window_name)`; the Python
defaults are `0, 1280, 720, False, "RiadCam"`. -/
def initCam (index width height : Nat) (preview : Bool) (window_name : String) :
    CameraControl :=
  { index := index, width := width, height := height, cap := none,
    running := false, last_frame := none, preview := preview,
    window_name := window_name, preview_running := false,
    capture_threads := 0, preview_threads := 0 }

/-- `is_open` (lines 69-71). -/
def is_open (st : CameraControl) : Bool :=
  st.running

/-- `show_preview` (lines 125-131): no-op when the preview loop already runs;
otherwise sets `preview`, sets `_preview_running`, and starts the preview
thread.  Note: `running` is not consulted. -/
def show_preview (st : CameraControl) : CameraControl :=
  if st.preview_running then st
  else { st with preview := true, preview_running := true,
                 preview_threads := st.preview_threads + 1 }

/-- `hide_preview` (lines 133-139): clears both the configuration flag
`preview` and the loop flag `_preview_running`; the `cv2.destroyWindow` call
and its swallowed exception have no state content. -/
def hide_preview (st : CameraControl) : CameraControl :=
  { st with preview := false, preview_running := false }

/-- `close` (lines 106-108): clears `running`, then calls `hide_preview`. -/
def close (st : CameraControl) : CameraControl :=
  hide_preview { st with running := false }

/-- `open` (lines 73-92); named `openCam` because `open` is a Lean keyword.
`deviceOk` is the outcome of `cv2.VideoCapture(index).isOpened()`.  Returns
the boolean result together with the successor state.  On failure the fresh
handle is released and `cap` is `None`; on success the device is retained,
the capture thread starts, and, if `preview` was requested, `show_preview`
runs.  The `cap.set` resolution calls act only on the external device. -/
def openCam (deviceOk : Bool) (st : CameraControl) : Bool × CameraControl :=
  if st.running then (true, st)
  else if !deviceOk then (false, { st with cap := none })
  else
    let st1 := { st with cap := some st.index, running := true,
                         capture_threads := st.capture_threads + 1 }
    (true, if st1.preview then show_preview st1 else st1)

/-- One successful iteration of the capture loop `_loop` (lines 94-101): the
device read produced a fresh frame object (allocated on the heap), and the
loop stores a reference to it in `last_frame` under the lock.  This is the
Frame Store `put`. -/
def put_frame (h : Heap) (st : CameraControl) (v : FrameData) :
    Heap × CameraControl :=
  let p := allocFrame h v
  (p.2, { st with last_frame := some p.1 })

/-- A sequence of capture iterations storing the frames `vs` in order. -/
def put_seq (h : Heap) (st : CameraControl) (vs : List FrameData) :
    Heap × CameraControl :=
  vs.foldl (fun p v => put_frame p.1 p.2 v) (h, st)

/-- `get_frame` (lines 110-112): under the lock, `None` when no frame was
stored, otherwise a reference to a freshly allocated copy of the stored
frame (`self.last_frame.copy()`). -/
def get_frame (h : Heap) (st : CameraControl) : Option Ref × Heap :=
  match st.last_frame with
  | none => (none, h)
  | some r =>
    let p := allocFrame h (readRef h r)
    (some p.1, p.2)

/-- One iteration of the body of `_preview_loop` (lines 143-154) as it acts
on controller state: when the loop flag is clear the loop has exited; with a
frame available the frame is rendered and `key & 0xFF == 27` (ESC) triggers
`hide_preview`; otherwise only external rendering happens. -/
def preview_tick (st : CameraControl) (frameAvailable : Bool) (key : Nat) :
    CameraControl :=
  if !st.preview_running then st
  else if frameAvailable && (key % 256 == 27) then hide_preview st
  else st

/-- The public operations of claim C3, with the device-acquisition outcome as
the payload of `opOpen`. -/
inductive CamOp
  | opOpen (deviceOk : Bool)
  | opClose
  | opShow
  | opHide

/-- Apply one public operation to the controller state. -/
def apply_op (st : CameraControl) : CamOp → CameraControl
  | .opOpen ok => (openCam ok st).2
  | .opClose => close st
  | .opShow => show_preview st
  | .opHide => hide_preview st

/-- Apply a sequence of public operations in order. -/
def run_ops (st : CameraControl) (ops : List CamOp) : CameraControl :=
  ops.foldl apply_op st

/-- The operation `op` is allowed at `st`: `show_preview` only while the
controller is capturing, everything else always. -/
def opGuard (st : CameraControl) : CamOp → Bool
  | .opShow => st.running
  | _ => true

/-- `show_preview` is invoked only while the controller is capturing, along
the whole run starting from `st`. -/
def guarded_from : CameraControl → List CamOp → Bool
  | _, [] => true
  | st, op :: rest => opGuard st op && guarded_from (apply_op st op) rest

/-- The spec invariant: `previewRunning` only while `running`. -/
def previewInv (st : CameraControl) : Bool :=
  !st.preview_running || st.running

/-- JSON values, as `resp.json()` can produce them. -/
inductive JVal
  | jnull
  | jbool (b : Bool)
  | jnum (n : Int)
  | jstr (s : String)
  | jarr (xs : List JVal)
  | jobj (fields : List (String × JVal))

/-- Dictionary field lookup on a JSON object body. -/
def jlookup : List (String × JVal) → String → Option JVal
  | [], _ => none
  | (k, v) :: rest, key => if k = key then some v else jlookup rest key

/-- The base64 alphabet used by `base64.b64encode`. -/
def b64chars : List Char :=
  "ABCDEFGHIJKLMNOPQRSTUVWXYZabcdefghijklmnopqrstuvwxyz0123456789+/".toList

/-- Character number `n` of the base64 alphabet. -/
def b64char (n : Nat) : Char :=
  b64chars.getD n '='

/-- Encode one 3-byte group as four base64 characters. -/
def b64group (a b c : Nat) : List Char :=
  let n := (a % 256) * 65536 + (b % 256) * 256 + (c % 256)
  [b64char (n / 262144 % 64), b64char (n / 4096 % 64),
   b64char (n / 64 % 64), b64char (n % 64)]

/-- Base64-encode a byte list, padding the final partial group with `=`. -/
def b64encodeChars : List Nat → List Char
  | [] => []
  | [a] => (b64group a 0 0).take 2 ++ ['=', '=']
  | [a, b] => (b64group a b 0).take 3 ++ ['=']
  | a :: b :: c :: rest => b64group a b c ++ b64encodeChars rest

/-- `base64.b64encode(buf).decode("ascii")` on the JPEG bytes. -/
def b64encode (bs : List Nat) : String :=
  String.mk (b64encodeChars bs)

/-- `OLLAMA_URL` (line 9). -/
def OLLAMA_URL : String := "http://127.0.0.1:11434/api/generate"

/-- `VISION_MODEL` (line 10). -/
def VISION_MODEL : String := "llava:7b"

/-- The default `prompt` argument of `describe_image_llava` (lines 15-19). -/
def defaultPrompt : String :=
  "Describe what you see in at most 4 short sentences. " ++
  "Be concise. The entire answer must be under 60 words. " ++
  "If there is visible text, add one last sentence starting with " ++
  "\x27Text: \x27 and write the text."

/-- The JSON payload built at lines 37-42. -/
structure Payload where
  model : String
  prompt : String
  stream : Bool
  images : List String

/-- The payload for prompt `prompt` and JPEG bytes `buf`. -/
def mkPayload (prompt : String) (buf : List Nat) : Payload :=
  { model := VISION_MODEL, prompt := prompt, stream := false,
    images := [b64encode buf] }

/-- What `requests.post` returned: either a raised transport exception with
message `msg`, or an HTTP response with a status code and a body that is
valid JSON (`some`) or not (`none`, making `resp.json()` raise). -/
structure HttpResponse where
  status : Nat
  body : Option JVal

/-- Outcome of the POST at line 45. -/
inductive PostOutcome
  | exc (msg : String)
  | resp (r : HttpResponse)

/-- Message of the `HTTPError` that `resp.raise_for_status()` raises for a
4xx or 5xx status; `none` when it does not raise. -/
def raise_for_status_msg (status : Nat) : Option String :=
  if 400 ≤ status ∧ status < 500 then some (toString status ++ " Client Error")
  else if 500 ≤ status ∧ status < 600 then some (toString status ++ " Server Error")
  else none

/-- `str.strip()`: drop leading and trailing whitespace characters.  Defined
by structural recursion on the character list so that concrete instances
evaluate; Python additionally strips some rarer whitespace code points,
which no frame of this development carries. -/
def pyStrip (s : String) : String :=
  String.mk
    ((((s.toList.dropWhile Char.isWhitespace).reverse.dropWhile
        Char.isWhitespace).reverse))

/-- `data.get("response", "")` followed by `.strip()`, with Python dynamic
typing made explicit: `.get` raises `AttributeError` unless `data` is a JSON
object, and `.strip` raises unless the looked-up value (or the `""` default
when the field is missing) is a string.  A raised message is returned in
`Except.error` and lands in the `except` clause of the caller. -/
def extractResponse : JVal → Except String String
  | .jobj fields =>
    match jlookup fields "response" with
    | none => .ok ""
    | some (.jstr s) => .ok s
    | some _ => .error "AttributeError: value has no attribute strip"
  | _ => .error "AttributeError: value has no attribute get"

/-- The error detail of an outcome of the POST that makes the `try` block
raise before the body is parsed: a transport exception message, or the
message of the `HTTPError` from `raise_for_status`.  `none` when neither
raises. -/
def outcomeError : PostOutcome → Option String
  | .exc e => some e
  | .resp r => raise_for_status_msg r.status

/-- Result of the vision client: the returned text, whether an HTTP request
was issued at all, and the payload that was posted (if any). -/
structure VisionResult where
  text : String
  posted : Bool
  payload : Option Payload

/-- `describe_image_llava(frame_bgr, prompt)` (lines 13-50).  `encodeJpeg`
is `cv2.imencode(".jpg", ·)` (its `ok` flag and buffer folded into an
`Option`), and `post` is the HTTP stack: the outcome of the POST of a given
payload.  The body follows the source line by line: encode failure returns
the fixed message before any request; otherwise the payload is built and
posted, and every exception of the `try` block — transport error,
`raise_for_status`, a non-JSON body, or an `AttributeError` from the
dynamic field access — becomes the `"Vision request failed: "` message. -/
def describe_image_llava (encodeJpeg : FrameData → Option (List Nat))
    (post : Payload → PostOutcome) (frame_bgr : FrameData) (prompt : String) :
    VisionResult :=
  match encodeJpeg frame_bgr with
  | none => { text := "Failed to encode camera frame.", posted := false,
              payload := none }
  | some buf =>
    let payload := mkPayload prompt buf
    let text :=
      match post payload with
      | .exc e => "Vision request failed: " ++ e
      | .resp r =>
        match raise_for_status_msg r.status with
        | some m => "Vision request failed: " ++ m
        | none =>
          match r.body with
          | none =>
            "Vision request failed: Expecting value: line 1 column 1 (char 0)"
          | some data =>
            match extractResponse data with
            | .error e => "Vision request failed: " ++ e
            | .ok s =>
              if pyStrip s = "" then "Model returned empty response."
              else pyStrip s
    { text := text, posted := true, payload := some payload }

/-- `describe_current_view(prompt)` (lines 115-122): fetch the latest frame
via `get_frame`; with no frame, the fixed message and no network activity;
otherwise delegate the copied frame to `describe_image_llava`. -/
def describe_current_view (encodeJpeg : FrameData → Option (List Nat))
    (post : Payload → PostOutcome) (h : Heap) (st : CameraControl)
    (prompt : String) : VisionResult × Heap :=
  match get_frame h st with
  | (none, h2) =>
    ({ text := "Camera frame is not available yet.", posted := false,
       payload := none }, h2)
  | (some r, h2) => (describe_image_llava encodeJpeg post (readRef h2 r) prompt, h2)

/-! Helper lemmas about the heap and the frame-store sequence. -/

/-- Storing one frame appends its payload to the heap and points
`last_frame` at the fresh cell. -/
theorem put_seq_cons (h : Heap) (st : CameraControl) (v : FrameData)
    (rest : List FrameData) :
    put_seq h st (v :: rest) =
      put_seq (h ++ [v]) { st with last_frame := some h.length } rest := rfl

/-- A capture sequence appends exactly the captured payloads to the heap. -/
theorem put_seq_heap (vs : List FrameData) (h : Heap) (st : CameraControl) :
    (put_seq h st vs).1 = h ++ vs := by
  induction vs generalizing h st with
  | nil => simp [put_seq]
  | cons v rest ih =>
    rw [put_seq_cons, ih]
    simp

/-- After a non-empty capture sequence, `last_frame` points at the cell
allocated by the final iteration. -/
theorem put_seq_last (vs : List FrameData) (h : Heap) (st : CameraControl)
    (hne : vs ≠ []) :
    (put_seq h st vs).2.last_frame = some (h.length + (vs.length - 1)) := by
  induction vs generalizing h st with
  | nil => exact absurd rfl hne
  | cons v rest ih =>
    cases rest with
    | nil => simp [put_seq, put_frame, allocFrame]
    | cons w ws =>
      rw [put_seq_cons, ih _ _ (by simp)]
      congr 1
      simp
      omega

/-- `getD` at the final index is `getLast`. -/
theorem getD_length_sub_one (vs : List FrameData) (hne : vs ≠ []) :
    vs.getD (vs.length - 1) [] = vs.getLast hne := by
  have hl : vs.length - 1 < vs.length :=
    Nat.sub_lt (List.length_pos.mpr hne) Nat.one_pos
  rw [List.getD_eq_getElem _ _ hl, List.getLast_eq_getElem]

/-- Reading the freshly appended cell returns the appended payload. -/
theorem readRef_append_self (h : Heap) (v : FrameData) :
    readRef (h ++ [v]) h.length = v := by
  simp [readRef, List.getD_append_right _ _ _ _ (le_refl h.length)]

/-- Appending a cell does not change the payload of existing cells. -/
theorem readRef_append_lt (h : Heap) (v : FrameData) (r : Ref)
    (hlt : r < h.length) :
    readRef (h ++ [v]) r = readRef h r := by
  unfold readRef
  rw [List.getD_append _ _ _ _ hlt]

/-- Mutating one cell does not change the payload of a different cell. -/
theorem readRef_writeRef_ne (h : Heap) (r r2 : Ref) (v : FrameData)
    (hne : r2 ≠ r) :
    readRef (writeRef h r2 v) r = readRef h r := by
  simp [readRef, writeRef, List.getD_eq_getElem?_getD, List.getElem?_set_ne hne]

/-- After a non-empty capture sequence, the stored frame payload is the last
captured frame. -/
theorem readRef_put_seq (vs : List FrameData) (h : Heap) (st : CameraControl)
    (hne : vs ≠ []) :
    readRef (put_seq h st vs).1 (h.length + (vs.length - 1)) = vs.getLast hne := by
  rw [put_seq_heap, readRef,
      List.getD_append_right _ _ _ _ (Nat.le_add_right _ _)]
  rw [Nat.add_sub_cancel_left]
  exact getD_length_sub_one vs hne

/-! Claim theorems. -/

/-- C2: for every controller in which no frame has yet been stored
(`last_frame` still `None`), `get_frame` returns the absent value `none`
and leaves the heap untouched; being a total function of the current state,
it involves no waiting for a frame. -/
theorem get_frame_absent (h : Heap) (st : CameraControl)
    (hn : st.last_frame = none) :
    get_frame h st = (none, h) := by
  simp [get_frame, hn]

/-- C2 witness: the freshly constructed controller has no stored frame and
`get_frame` returns `none`. -/
theorem get_frame_absent_witness :
    (initCam 0 1280 720 false "RiadCam").last_frame = none ∧
    get_frame [] (initCam 0 1280 720 false "RiadCam") = (none, []) :=
  ⟨rfl, get_frame_absent [] (initCam 0 1280 720 false "RiadCam") rfl⟩

/-- C5: when the device cannot be acquired, `open` on a non-running
controller returns `false`, the controller keeps `running = false`, retains
no device handle (`cap = none`), and nothing else of the state changes; the
embedding is a total function, so no exception escapes. -/
theorem open_device_failure (st : CameraControl) (hrun : st.running = false) :
    (openCam false st).1 = false ∧ (openCam false st).2.running = false ∧
    (openCam false st).2.cap = none ∧
    openCam false st = (false, { st with cap := none }) := by
  simp [openCam, hrun]

/-- C5 witness: opening the default controller against a device that fails
to acquire. -/
theorem open_device_failure_witness :
    (initCam 0 1280 720 false "RiadCam").running = false ∧
    ((openCam false (initCam 0 1280 720 false "RiadCam")).1 = false ∧
     (openCam false (initCam 0 1280 720 false "RiadCam")).2.running = false ∧
     (openCam false (initCam 0 1280 720 false "RiadCam")).2.cap = none ∧
     openCam false (initCam 0 1280 720 false "RiadCam") =
       (false, { initCam 0 1280 720 false "RiadCam" with cap := none })) :=
  ⟨rfl, open_device_failure (initCam 0 1280 720 false "RiadCam") rfl⟩

/-- C6: `open` is idempotent — on a controller that is already running a
second `open` returns `true` with the state unchanged, whatever the device
outcome would be; in particular the capture-thread counter is unchanged, so
no additional Capture Loop is started. -/
theorem open_idempotent (st : CameraControl) (deviceOk : Bool)
    (hrun : st.running = true) :
    openCam deviceOk st = (true, st) ∧
    (openCam deviceOk st).2.capture_threads = st.capture_threads := by
  simp [openCam, hrun]

/-- C6 witness: after a first successful `open` from the default state, a
second `open` returns `true` and changes nothing. -/
theorem open_idempotent_witness :
    ((openCam true (initCam 0 1280 720 false "RiadCam")).2).running = true ∧
    (openCam true ((openCam true (initCam 0 1280 720 false "RiadCam")).2) =
       (true, (openCam true (initCam 0 1280 720 false "RiadCam")).2) ∧
     ((openCam true ((openCam true (initCam 0 1280 720 false "RiadCam")).2)).2).capture_threads =
       ((openCam true (initCam 0 1280 720 false "RiadCam")).2).capture_threads) :=
  ⟨rfl, open_idempotent ((openCam true (initCam 0 1280 720 false "RiadCam")).2) true rfl⟩

/-- C9: when JPEG encoding of the frame fails (`cv2.imencode` returns a
false flag), `describe_image_llava` returns the fixed failure message, with
no request posted and no payload built; totality of the embedding rules out
an escaping exception. -/
theorem describe_encode_failure (encodeJpeg : FrameData → Option (List Nat))
    (post : Payload → PostOutcome) (frame : FrameData) (prompt : String)
    (henc : encodeJpeg frame = none) :
    describe_image_llava encodeJpeg post frame prompt =
      { text := "Failed to encode camera frame.", posted := false,
        payload := none } := by
  simp [describe_image_llava, henc]

/-- C9 witness: a concrete always-failing encoder. -/
theorem describe_encode_failure_witness :
    ((fun _ : FrameData => (none : Option (List Nat))) [1, 2]) = none ∧
    describe_image_llava (fun _ => none) (fun _ => PostOutcome.exc "x") [1, 2]
        "p" =
      { text := "Failed to encode camera frame.", posted := false,
        payload := none } :=
  ⟨rfl, describe_encode_failure (fun _ => none) (fun _ => PostOutcome.exc "x")
    [1, 2] "p" rfl⟩

/-- C7: with no frame available (`last_frame = None`, so `get_frame` is
absent), `describe_current_view` returns the fixed not-available message,
posts no request, and leaves the heap unchanged. -/
theorem describe_current_view_no_frame (encodeJpeg : FrameData → Option (List Nat))
    (post : Payload → PostOutcome) (h : Heap) (st : CameraControl)
    (prompt : String) (hn : st.last_frame = none) :
    describe_current_view encodeJpeg post h st prompt =
      ({ text := "Camera frame is not available yet.", posted := false,
         payload := none }, h) := by
  simp [describe_current_view, get_frame, hn]

/-- C7 witness: the freshly constructed controller. -/
theorem describe_current_view_no_frame_witness :
    (initCam 0 1280 720 false "RiadCam").last_frame = none ∧
    describe_current_view (fun _ => some [0]) (fun _ => PostOutcome.exc "x")
        [] (initCam 0 1280 720 false "RiadCam") "p" =
      ({ text := "Camera frame is not available yet.", posted := false,
         payload := none }, []) :=
  ⟨rfl, describe_current_view_no_frame (fun _ => some [0])
    (fun _ => PostOutcome.exc "x") [] (initCam 0 1280 720 false "RiadCam") "p" rfl⟩

/-- C8: for every POST outcome that raises — a transport exception or an
HTTP error status from `raise_for_status` — `describe_image_llava` returns
the failure string with the error detail appended, and, being total, lets no
exception escape to the caller. -/
theorem describe_embeds_error (encodeJpeg : FrameData → Option (List Nat))
    (post : Payload → PostOutcome) (frame : FrameData) (prompt : String)
    (buf : List Nat) (e : String) (henc : encodeJpeg frame = some buf)
    (herr : outcomeError (post (mkPayload prompt buf)) = some e) :
    (describe_image_llava encodeJpeg post frame prompt).text =
      "Vision request failed: " ++ e := by
  cases hp : post (mkPayload prompt buf) with
  | exc m =>
    rw [hp] at herr
    simp only [outcomeError, Option.some.injEq] at herr
    simp [describe_image_llava, henc, hp, herr]
  | resp r =>
    rw [hp] at herr
    simp only [outcomeError] at herr
    simp [describe_image_llava, henc, hp, herr]

/-- C8 witness: a connection failure with a concrete detail string. -/
theorem describe_embeds_error_witness :
    ((fun _ : FrameData => some [7]) [7]) = some [7] ∧
    outcomeError ((fun _ : Payload => PostOutcome.exc "connection refused")
      (mkPayload "p" [7])) = some "connection refused" ∧
    (describe_image_llava (fun _ => some [7])
        (fun _ => PostOutcome.exc "connection refused") [7] "p").text =
      "Vision request failed: " ++ "connection refused" :=
  ⟨rfl, rfl, describe_embeds_error (fun _ => some [7])
    (fun _ => PostOutcome.exc "connection refused") [7] "p" [7]
    "connection refused" rfl rfl⟩

/-- C4 counterexample: a successful response whose JSON body is not an
object (here the empty array).  `data.get` raises and the catch-all clause
returns the error-embedding failure string, not the empty-response
placeholder the claim promises for every non-conforming shape. -/
theorem describe_nonobject_body_not_placeholder :
    (describe_image_llava (fun _ => some [0])
        (fun _ => PostOutcome.resp ⟨200, some (JVal.jarr [])⟩) [0] "p").text =
      "Vision request failed: AttributeError: value has no attribute get" ∧
    (describe_image_llava (fun _ => some [0])
        (fun _ => PostOutcome.resp ⟨200, some (JVal.jarr [])⟩) [0] "p").text ≠
      "Model returned empty response." := by
  constructor <;> decide

/-- C4 (amended): for a successful HTTP response whose body is a JSON
object, `describe_image_llava` returns the whitespace-trimmed `response`
field, the placeholder when that field is missing or trims to empty, and the
error-embedding failure string (not the placeholder) when the field is
present but not a string; non-object bodies likewise produce the failure
string, per the counterexample. -/
theorem describe_extracts_response_field
    (encodeJpeg : FrameData → Option (List Nat))
    (post : Payload → PostOutcome) (frame : FrameData) (prompt : String)
    (buf : List Nat) (fields : List (String × JVal))
    (henc : encodeJpeg frame = some buf)
    (hpost : post (mkPayload prompt buf) =
      PostOutcome.resp ⟨200, some (JVal.jobj fields)⟩) :
    (describe_image_llava encodeJpeg post frame prompt).text =
      match jlookup fields "response" with
      | some (JVal.jstr s) =>
        if pyStrip s = "" then "Model returned empty response." else pyStrip s
      | none => "Model returned empty response."
      | some _ =>
        "Vision request failed: AttributeError: value has no attribute strip" := by
  have h200 : raise_for_status_msg 200 = none := by decide
  simp only [describe_image_llava, henc, hpost, h200, extractResponse]
  cases hl : jlookup fields "response" with
  | none =>
    have he : pyStrip "" = "" := rfl
    simp [he]
  | some v => cases v <;> simp

/-- C4 witness: the spec example, a body of `{"response": " Hello world "}`,
yields the trimmed `"Hello world"`. -/
theorem describe_extracts_response_field_witness :
    ((fun _ : FrameData => some [65]) [65]) = some [65] ∧
    (describe_image_llava (fun _ => some [65])
        (fun _ => PostOutcome.resp
          ⟨200, some (JVal.jobj [("response", JVal.jstr " Hello world ")])⟩)
        [65] "p").text = "Hello world" := by
  refine ⟨rfl, ?_⟩
  rw [describe_extracts_response_field (fun _ => some [65])
    (fun _ => PostOutcome.resp
      ⟨200, some (JVal.jobj [("response", JVal.jstr " Hello world ")])⟩)
    [65] "p" [65] [("response", JVal.jstr " Hello world ")] rfl rfl]
  decide

/-- C10: hiding the preview — directly or through the ESC branch of the
preview loop — clears the `preview` configuration flag, so after `close` a
subsequent `open` (whatever the device outcome) does not auto-start the
preview: `preview_running` stays false. -/
theorem hide_preview_clears_config (st : CameraControl) (deviceOk : Bool)
    (hpr : st.preview_running = true) :
    (hide_preview st).preview = false ∧
    (preview_tick st true 27).preview = false ∧
    (openCam deviceOk (close (hide_preview st))).2.preview_running = false := by
  refine ⟨rfl, ?_, ?_⟩
  · simp [preview_tick, hpr, hide_preview]
  · cases deviceOk <;>
      simp [openCam, close, hide_preview, show_preview]

/-- C10 witness: a controller constructed with `preview = True`, opened (so
the preview auto-started), then hidden once; reopening after `close` leaves
the preview off. -/
theorem hide_preview_clears_config_witness :
    ((openCam true (initCam 0 1280 720 true "RiadCam")).2).preview_running = true ∧
    ((hide_preview ((openCam true (initCam 0 1280 720 true "RiadCam")).2)).preview = false ∧
     (preview_tick ((openCam true (initCam 0 1280 720 true "RiadCam")).2) true 27).preview = false ∧
     (openCam true (close (hide_preview ((openCam true (initCam 0 1280 720 true "RiadCam")).2)))).2.preview_running = false) :=
  ⟨rfl, hide_preview_clears_config
    ((openCam true (initCam 0 1280 720 true "RiadCam")).2) true rfl⟩

/-- C3 counterexample: one public `show_preview` on the freshly constructed
(closed) controller reaches a state with `_preview_running` true while
`running` is false, so the claimed invariant fails on a reachable state. -/
theorem show_preview_violates_invariant :
    (run_ops (initCam 0 1280 720 false "RiadCam") [CamOp.opShow]).preview_running = true ∧
    (run_ops (initCam 0 1280 720 false "RiadCam") [CamOp.opShow]).running = false ∧
    previewInv (run_ops (initCam 0 1280 720 false "RiadCam") [CamOp.opShow]) = false := by
  refine ⟨rfl, rfl, rfl⟩

/-- `show_preview` does not change `running`. -/
theorem show_preview_running (st : CameraControl) :
    (show_preview st).running = st.running := by
  unfold show_preview
  split <;> rfl

/-- One public operation preserves the preview invariant, provided
`show_preview` is only applied while capturing. -/
theorem previewInv_step (st : CameraControl) (op : CamOp)
    (hinv : previewInv st = true)
    (hguard : op = CamOp.opShow → st.running = true) :
    previewInv (apply_op st op) = true := by
  cases op with
  | opOpen ok =>
    simp only [apply_op, openCam]
    split
    · exact hinv
    · split
      · simpa [previewInv] using hinv
      · rw [previewInv]
        split
        · rw [show_preview_running]
          simp
        · simp
  | opClose => simp [apply_op, close, hide_preview, previewInv]
  | opShow =>
    have hr := hguard rfl
    simp only [apply_op, show_preview]
    split
    · exact hinv
    · simp [previewInv, hr]
  | opHide => simp [apply_op, hide_preview, previewInv]

/-- A guarded run of public operations preserves the preview invariant. -/
theorem previewInv_run (ops : List CamOp) (st : CameraControl)
    (hinv : previewInv st = true) (hg : guarded_from st ops = true) :
    previewInv (run_ops st ops) = true := by
  induction ops generalizing st with
  | nil => simpa [run_ops] using hinv
  | cons op rest ih =>
    rw [guarded_from, Bool.and_eq_true] at hg
    have hguard : op = CamOp.opShow → st.running = true := by
      intro he
      subst he
      simpa [opGuard] using hg.1
    exact ih (apply_op st op) (previewInv_step st op hinv hguard) hg.2

/-- C3 (amended): for every sequence of public operations from a freshly
constructed controller in which `show_preview` is invoked only while the
controller is capturing, every reachable state satisfies the invariant
`_preview_running → running`; the unguarded claim fails, per the
counterexample, because `show_preview` itself never consults `running`. -/
theorem preview_only_while_running_guarded (i w ht : Nat) (p : Bool)
    (n : String) (ops : List CamOp)
    (hg : guarded_from (initCam i w ht p n) ops = true) :
    previewInv (run_ops (initCam i w ht p n) ops) = true :=
  previewInv_run ops (initCam i w ht p n) rfl hg

/-- C3 witness: a guarded run that opens, shows, hides, and closes. -/
theorem preview_only_while_running_guarded_witness :
    guarded_from (initCam 0 1280 720 false "RiadCam")
      [CamOp.opOpen true, CamOp.opShow, CamOp.opHide, CamOp.opClose] = true ∧
    previewInv (run_ops (initCam 0 1280 720 false "RiadCam")
      [CamOp.opOpen true, CamOp.opShow, CamOp.opHide, CamOp.opClose]) = true :=
  ⟨rfl, preview_only_while_running_guarded 0 1280 720 false "RiadCam"
    [CamOp.opOpen true, CamOp.opShow, CamOp.opHide, CamOp.opClose] rfl⟩

/-- C1: after any non-empty sequence of capture-loop writes, `get_frame`
returns a fresh cell whose payload equals the last written frame, the fresh
cell is not the stored cell, and mutating the returned cell does not change
what a subsequent `get_frame` returns. -/
theorem get_frame_returns_unaliased_copy (h : Heap) (st : CameraControl)
    (vs : List FrameData) (hne : vs ≠ []) (m : FrameData) :
    ∃ r2 h2,
      get_frame (put_seq h st vs).1 (put_seq h st vs).2 = (some r2, h2) ∧
      readRef h2 r2 = vs.getLast hne ∧
      (put_seq h st vs).2.last_frame ≠ some r2 ∧
      ∃ r3 h3,
        get_frame (writeRef h2 r2 m) (put_seq h st vs).2 = (some r3, h3) ∧
        readRef h3 r3 = vs.getLast hne := by
  have hheap := put_seq_heap vs h st
  have hlast := put_seq_last vs h st hne
  have hvpos : 0 < vs.length := List.length_pos.mpr hne
  have hRlt : h.length + (vs.length - 1) < (put_seq h st vs).1.length := by
    rw [hheap, List.length_append]
    omega
  have hreadR := readRef_put_seq vs h st hne
  refine ⟨(put_seq h st vs).1.length,
    (put_seq h st vs).1 ++
      [readRef (put_seq h st vs).1 (h.length + (vs.length - 1))],
    ?_, ?_, ?_, ?_⟩
  · simp [get_frame, hlast, allocFrame]
  · rw [readRef_append_self, hreadR]
  · rw [hlast]
    simp only [ne_eq, Option.some.injEq]
    omega
  · have hr2ne : (put_seq h st vs).1.length ≠ h.length + (vs.length - 1) :=
      (Nat.ne_of_lt hRlt).symm
    have hread3 : readRef
        (writeRef ((put_seq h st vs).1 ++
            [readRef (put_seq h st vs).1 (h.length + (vs.length - 1))])
          (put_seq h st vs).1.length m)
        (h.length + (vs.length - 1)) = vs.getLast hne := by
      rw [readRef_writeRef_ne _ _ _ _ hr2ne,
          readRef_append_lt _ _ _ hRlt, hreadR]
    refine ⟨(writeRef ((put_seq h st vs).1 ++
        [readRef (put_seq h st vs).1 (h.length + (vs.length - 1))])
        (put_seq h st vs).1.length m).length,
      writeRef ((put_seq h st vs).1 ++
          [readRef (put_seq h st vs).1 (h.length + (vs.length - 1))])
          (put_seq h st vs).1.length m ++
        [readRef (writeRef ((put_seq h st vs).1 ++
            [readRef (put_seq h st vs).1 (h.length + (vs.length - 1))])
          (put_seq h st vs).1.length m) (h.length + (vs.length - 1))],
      ?_, ?_⟩
    · simp [get_frame, hlast, allocFrame]
    · rw [readRef_append_self, hread3]

/-- C1 witness: one write of the frame `[1, 2]`; the copy reads back
`[1, 2]`, is a different cell than the stored one, and after overwriting the
copy with `[9]` a second `get_frame` still reads `[1, 2]`. -/
theorem get_frame_returns_unaliased_copy_witness :
    ∃ r2 h2,
      get_frame (put_seq [] (initCam 0 1280 720 false "RiadCam") [[1, 2]]).1
        (put_seq [] (initCam 0 1280 720 false "RiadCam") [[1, 2]]).2 =
        (some r2, h2) ∧
      readRef h2 r2 = [1, 2] ∧
      (put_seq [] (initCam 0 1280 720 false "RiadCam") [[1, 2]]).2.last_frame ≠
        some r2 ∧
      ∃ r3 h3,
        get_frame (writeRef h2 r2 [9])
          (put_seq [] (initCam 0 1280 720 false "RiadCam") [[1, 2]]).2 =
          (some r3, h3) ∧
        readRef h3 r3 = [1, 2] := by
  simpa using get_frame_returns_unaliased_copy []
    (initCam 0 1280 720 false "RiadCam") [[1, 2]] (by simp) [9]
